import Mathlib

/-!
Shallow embedding of the jellyfin-client-rs library (src/error.rs,
src/request_builder.rs, src/model.rs, src/lib.rs).

HTTP transport is modelled by a `Server` function from requests to
responses; each asynchronous operation of the source becomes a pure
function taking the server as an argument.  Machine strings stay
`String`, `u32`/`u64` become `Nat`, `i64` becomes `Int`.
-/

set_option autoImplicit false

namespace Jellyfin

/-- JSON document tree, the fragment of serde_json values that the
    models of model.rs produce and consume. -/
inductive Json where
  | null : Json
  | str : String → Json
  | num : Int → Json
  | arr : List Json → Json
  | obj : List (String × Json) → Json

/-- Error taxonomy of src/error.rs (`enum JellyfinError`).  The
    `reqwest::Error` payload of `RequestError` is opaque external data
    and is not modelled. -/
inductive JellyfinError where
  | authorizationError : JellyfinError
  | notFound : JellyfinError
  | parseError : JellyfinError
  | serverError : JellyfinError
  | badRequest : JellyfinError
  | requestError : JellyfinError
  | unhandledError : String → JellyfinError
  deriving Repr, DecidableEq

/-- Status text carried by `UnhandledError`, the source's
    `code.to_string()`.  The `http` crate renders a status as its
    decimal code (followed by the canonical reason phrase, which no
    claim depends on); we keep the decimal rendering. -/
def statusText (code : Nat) : String := toString code

/-- Embedding of `impl From<StatusCode> for JellyfinError`
    (src/error.rs lines 32-42), with the arms in source order. -/
def JellyfinError.fromStatus (code : Nat) : JellyfinError :=
  if code = 401 then .authorizationError
  else if code = 404 then .notFound
  else if code = 500 then .serverError
  else if code = 400 then .badRequest
  else .unhandledError (statusText code)

/-- Embeds `StatusCode::is_client_error`: 400 ≤ code ≤ 499. -/
def isClientError (code : Nat) : Bool := 400 ≤ code && code ≤ 499

/-- Embeds `StatusCode::is_server_error`: 500 ≤ code ≤ 599. -/
def isServerError (code : Nat) : Bool := 500 ≤ code && code ≤ 599

/-- HTTP method, only the two used by the client. -/
inductive Method where
  | get : Method
  | post : Method
  deriving Repr, DecidableEq

/-- Association-list lookup, first binding wins; the lists built below
    keep at most one binding per key, mirroring `HashMap` /
    `HeaderMap`. -/
def assocFind {α : Type} : List (String × α) → String → Option α
  | [], _ => none
  | (a, b) :: rest, k => if a = k then some b else assocFind rest k

/-- Remove every binding of a key. -/
def assocErase {α : Type} : List (String × α) → String → List (String × α)
  | [], _ => []
  | (a, b) :: rest, k =>
    if a = k then assocErase rest k else (a, b) :: assocErase rest k

/-- Embeds `HashMap::insert` / `HeaderMap::insert`: bind the key, replacing
    any previous binding. -/
def assocInsert {α : Type} (l : List (String × α)) (k : String) (v : α) :
    List (String × α) :=
  (k, v) :: assocErase l k

/-- Insert every pair of a list in order, later inserts overwriting
    earlier ones (the `for (k, v) in extra_params` loop). -/
def insertAll {α : Type} (m : List (String × α)) (l : List (String × α)) :
    List (String × α) :=
  l.foldl (fun acc kv => assocInsert acc kv.1 kv.2) m

/-- Value of the last pair of a list carrying a key, if any. -/
def lookupLast {α : Type} : List (String × α) → String → Option α
  | [], _ => none
  | (a, b) :: rest, k =>
    match lookupLast rest k with
    | some v => some v
    | none => if a = k then some b else none

/-- One outgoing HTTP request: method, resolved URL, appended query
    pairs, headers, optional JSON body. -/
structure Request where
  method : Method
  url : String
  query : List (String × String)
  headers : List (String × String)
  body : Option Json

/-- One HTTP response.  `body` is the raw text (`Response::text` /
    `Response::bytes`); `jsonBody` is the result of the external
    serde_json parse of that text (`none` when the text is not valid
    JSON), consumed by `Response::json`. -/
structure Response where
  status : Nat
  body : String
  jsonBody : Option Json

/-- The remote server, modelled as a function from the request the
    client sends to the response the transport returns. -/
abbrev Server := Request → Response

/-- Modelled ambient environment: the local hostname returned by
    `hostname::get()`. -/
def localHostname : String := "localhost"

/-- Modelled ambient environment: `env!("CARGO_PKG_VERSION")`. -/
def cargoPkgVersion : String := "0.1.0"

/-- Modelled ambient environment: the `Uuid::new_v4()` device id used
    by password authentication. -/
def deviceUuid : String := "00000000-0000-0000-0000-000000000000"

/-- Client-identification header value attached by
    `JellyfinRequestBuilder::new` (request_builder.rs lines 22-31). -/
def builderEmbyAuthorization : String :=
  "MediaBrowser Client=JellyRust,Device=" ++ localHostname ++
    ",DeviceId=69,Version=" ++ cargoPkgVersion

/-- Client-identification header value built by
    `authenticate_with_password` (lib.rs lines 91-96). -/
def passwordEmbyAuthorization : String :=
  "MediaBrowser Client=jellyfin-rust,Device=" ++ localHostname ++
    ",DeviceId=" ++ deviceUuid ++ ",Version=" ++ cargoPkgVersion

/-- Embedding of `struct JellyfinRequestBuilder` (the `client` handle
    carries no state that matters here). -/
structure JellyfinRequestBuilder where
  request : Request

/-- Embeds `JellyfinRequestBuilder::new`: fresh request with the fixed
    user-agent and client-identification headers. -/
def JellyfinRequestBuilder.new (method : Method) (url : String) :
    JellyfinRequestBuilder :=
  { request :=
      { method := method
        url := url
        query := []
        headers :=
          assocInsert
            (assocInsert [] "User-Agent" "Rust Jellyfin Library")
            "X-Emby-Authorization" builderEmbyAuthorization
        body := none } }

/-- Embeds `JellyfinRequestBuilder::json`: set the body and the content type.
    (`serde_json::to_string` cannot fail on the object bodies the
    client builds, so serialization failure is not modelled.) -/
def JellyfinRequestBuilder.json (b : JellyfinRequestBuilder) (j : Json) :
    JellyfinRequestBuilder :=
  { request :=
      { b.request with
          body := some j
          headers :=
            assocInsert b.request.headers "Content-Type" "application/json" } }

/-- Embeds `JellyfinRequestBuilder::auth`: set the `X-Emby-Token` header to
    the token. -/
def JellyfinRequestBuilder.auth (b : JellyfinRequestBuilder) (token : String) :
    JellyfinRequestBuilder :=
  { request :=
      { b.request with
          headers := assocInsert b.request.headers "X-Emby-Token" token } }

/-- Modelled from the spec: `withHeader(name, value)` sets an arbitrary
    header, overwriting any existing value with the same name.  It is
    called by `authenticate_with_password` but its definition is not
    among the files under src/. -/
def JellyfinRequestBuilder.header (b : JellyfinRequestBuilder)
    (name value : String) : JellyfinRequestBuilder :=
  { request :=
      { b.request with
          headers := assocInsert b.request.headers name value } }

/-- Embeds `JellyfinRequestBuilder::query`: append each pair of the parameter
    map as a URL query parameter. -/
def JellyfinRequestBuilder.query (b : JellyfinRequestBuilder)
    (params : List (String × String)) : JellyfinRequestBuilder :=
  { request := { b.request with query := b.request.query ++ params } }

/-- Body of `JellyfinRequestBuilder::send` after the transport call:
    a 4xx or 5xx status becomes the mapped error, any other status
    hands back the raw response. -/
def sendRequest (server : Server) (req : Request) :
    Except JellyfinError Response :=
  let response := server req
  if isClientError response.status || isServerError response.status then
    .error (JellyfinError.fromStatus response.status)
  else
    .ok response

/-- Embeds `JellyfinRequestBuilder::send` (request_builder.rs lines 70-80). -/
def JellyfinRequestBuilder.send (b : JellyfinRequestBuilder)
    (server : Server) : Except JellyfinError Response :=
  sendRequest server b.request

/-! Data model (src/model.rs), with the serde wire codecs induced by
    `#[serde(rename_all = "PascalCase")]` and, for `ItemType`, the
    internally tagged representation `#[serde(tag = "Type")]`. -/

/-- Wire representation of `chrono::DateTime<Utc>`: chrono's serde
    support serializes a timestamp to its RFC 3339 string and parses it
    back losslessly, so the external type is modelled by that string. -/
abbrev ChronoDateTime := String

/-- Embeds `struct UserInfo`. -/
structure UserInfo where
  name : String
  server_id : String
  id : String
  deriving Repr, DecidableEq

/-- Embeds `struct AuthResponse`. -/
structure AuthResponse where
  user : UserInfo
  access_token : String
  deriving Repr, DecidableEq

/-- Embeds `struct ItemsResponse<I>`. -/
structure ItemsResponse (I : Type) where
  items : List I
  total_record_count : Int
  start_index : Int
  deriving Repr, DecidableEq

/-- Embeds `struct Item`. -/
structure Item where
  name : String
  id : String
  collection_type : Option String
  deriving Repr, DecidableEq

/-- Embeds `struct ArtistItem`. -/
structure ArtistItem where
  name : String
  id : String
  deriving Repr, DecidableEq

/-- Embeds `struct MusicAlbum`. -/
structure MusicAlbum where
  name : String
  id : String
  premiere_date : Option ChronoDateTime
  artists : List String
  artist_items : List ArtistItem
  album_artist : Option String
  deriving Repr, DecidableEq

/-- Embeds `MusicAlbum`'s `derive(Default)` value: empty strings, `None`,
    empty vectors. -/
def MusicAlbum.default : MusicAlbum :=
  { name := ""
    id := ""
    premiere_date := none
    artists := []
    artist_items := []
    album_artist := none }

/-- Embeds `struct Audio`; `runtime_ticks` carries
    `#[serde(rename = "RunTimeTicks")]`. -/
structure Audio where
  name : String
  id : String
  premiere_date : Option ChronoDateTime
  artists : List String
  artist_items : List ArtistItem
  album : Option String
  album_id : Option String
  album_artist : Option String
  runtime_ticks : Option Nat
  deriving Repr, DecidableEq

/-- Embeds `enum ItemType`, internally tagged on the `Type` field. -/
inductive ItemType where
  | musicArtist : Item → ItemType
  | audio : Audio → ItemType
  | musicAlbum : MusicAlbum → ItemType
  | playlist : Item → ItemType
  deriving Repr, DecidableEq

/-- Embeds `ItemType::as_str`. -/
def ItemType.as_str : ItemType → String
  | .musicArtist _ => "MusicArtist"
  | .audio _ => "Audio"
  | .musicAlbum _ => "MusicAlbum"
  | .playlist _ => "Playlist"

/-- Embeds `enum ImageType`. -/
inductive ImageType where
  | primary : ImageType
  deriving Repr, DecidableEq

/-- Embeds `ImageType::as_str`. -/
def ImageType.as_str : ImageType → String
  | .primary => "Primary"

/-- Serialization of an `Option<String>` field: `None` is `null`. -/
def encodeOptStr : Option String → Json
  | none => .null
  | some s => .str s

/-- Field access on a JSON object. -/
def Json.getField (j : Json) (k : String) : Option Json :=
  match j with
  | .obj fields => assocFind fields k
  | _ => none

/-- Decode a JSON string. -/
def Json.asStr : Json → Option String
  | .str s => some s
  | _ => none

/-- Decode a JSON number as a `u64` (serde_json's `as_u64`). -/
def Json.asNat : Json → Option Nat
  | .num i => if i < 0 then none else some i.toNat
  | _ => none

/-- Decode a JSON number as an `i64`. -/
def Json.asInt : Json → Option Int
  | .num i => some i
  | _ => none

/-- Decode a required string field. -/
def getStrField (j : Json) (k : String) : Option String :=
  (j.getField k).bind Json.asStr

/-- Decode an `Option<String>` field: serde's derive treats a missing
    field and an explicit `null` both as `None`. -/
def getOptStrField (j : Json) (k : String) : Option (Option String) :=
  match j.getField k with
  | none => some none
  | some .null => some none
  | some (.str s) => some (some s)
  | some _ => none

/-- Decode an `Option<u64>` field. -/
def getOptNatField (j : Json) (k : String) : Option (Option Nat) :=
  match j.getField k with
  | none => some none
  | some .null => some none
  | some (.num i) => if i < 0 then none else some (some i.toNat)
  | some _ => none

/-- Serde serialization of `UserInfo`. -/
def UserInfo.toJson (u : UserInfo) : Json :=
  .obj [("Name", .str u.name), ("ServerId", .str u.server_id),
        ("Id", .str u.id)]

/-- Serde deserialization of `UserInfo`. -/
def UserInfo.fromJson (j : Json) : Option UserInfo := do
  let name ← getStrField j "Name"
  let server_id ← getStrField j "ServerId"
  let id ← getStrField j "Id"
  pure { name := name, server_id := server_id, id := id }

/-- Serde serialization of `AuthResponse`. -/
def AuthResponse.toJson (a : AuthResponse) : Json :=
  .obj [("User", a.user.toJson), ("AccessToken", .str a.access_token)]

/-- Serde deserialization of `AuthResponse`. -/
def AuthResponse.fromJson (j : Json) : Option AuthResponse := do
  let user ← (j.getField "User").bind UserInfo.fromJson
  let access_token ← getStrField j "AccessToken"
  pure { user := user, access_token := access_token }

/-- Serde serialization of `Item`. -/
def Item.toJson (i : Item) : Json :=
  .obj [("Name", .str i.name), ("Id", .str i.id),
        ("CollectionType", encodeOptStr i.collection_type)]

/-- Serde deserialization of `Item`. -/
def Item.fromJson (j : Json) : Option Item := do
  let name ← getStrField j "Name"
  let id ← getStrField j "Id"
  let collection_type ← getOptStrField j "CollectionType"
  pure { name := name, id := id, collection_type := collection_type }

/-- Serde serialization of `ArtistItem`. -/
def ArtistItem.toJson (a : ArtistItem) : Json :=
  .obj [("Name", .str a.name), ("Id", .str a.id)]

/-- Serde deserialization of `ArtistItem`. -/
def ArtistItem.fromJson (j : Json) : Option ArtistItem := do
  let name ← getStrField j "Name"
  let id ← getStrField j "Id"
  pure { name := name, id := id }

/-- Serde's sequence visitor: decode the elements in order, failing at
    the first element that does not decode. -/
def decodeEach {α : Type} (decode : Json → Option α) :
    List Json → Option (List α)
  | [] => some []
  | x :: rest => (decode x).bind
      (fun v => (decodeEach decode rest).map (v :: ·))

/-- Decode a `Vec<String>` field value. -/
def decodeStrList : Json → Option (List String)
  | .arr xs => decodeEach Json.asStr xs
  | _ => none

/-- Decode a `Vec<ArtistItem>` field value. -/
def decodeArtistItems : Json → Option (List ArtistItem)
  | .arr xs => decodeEach ArtistItem.fromJson xs
  | _ => none

/-- Serialization of the `PremiereDate` field. -/
def encodeOptDate : Option ChronoDateTime → Json
  | none => .null
  | some d => .str d

/-- Decode an `Option<DateTime<Utc>>` field. -/
def getOptDateField (j : Json) (k : String) : Option (Option ChronoDateTime) :=
  getOptStrField j k

/-- Serde serialization of `MusicAlbum`. -/
def MusicAlbum.toJson (m : MusicAlbum) : Json :=
  .obj [("Name", .str m.name), ("Id", .str m.id),
        ("PremiereDate", encodeOptDate m.premiere_date),
        ("Artists", .arr (m.artists.map .str)),
        ("ArtistItems", .arr (m.artist_items.map ArtistItem.toJson)),
        ("AlbumArtist", encodeOptStr m.album_artist)]

/-- Serde deserialization of `MusicAlbum`. -/
def MusicAlbum.fromJson (j : Json) : Option MusicAlbum := do
  let name ← getStrField j "Name"
  let id ← getStrField j "Id"
  let premiere_date ← getOptDateField j "PremiereDate"
  let artists ← (j.getField "Artists").bind decodeStrList
  let artist_items ← (j.getField "ArtistItems").bind decodeArtistItems
  let album_artist ← getOptStrField j "AlbumArtist"
  pure { name := name, id := id, premiere_date := premiere_date,
         artists := artists, artist_items := artist_items,
         album_artist := album_artist }

/-- Serde serialization of `Audio`. -/
def Audio.toJson (a : Audio) : Json :=
  .obj [("Name", .str a.name), ("Id", .str a.id),
        ("PremiereDate", encodeOptDate a.premiere_date),
        ("Artists", .arr (a.artists.map .str)),
        ("ArtistItems", .arr (a.artist_items.map ArtistItem.toJson)),
        ("Album", encodeOptStr a.album),
        ("AlbumId", encodeOptStr a.album_id),
        ("AlbumArtist", encodeOptStr a.album_artist),
        ("RunTimeTicks",
          match a.runtime_ticks with
          | none => .null
          | some n => .num n)]

/-- Serde deserialization of `Audio`. -/
def Audio.fromJson (j : Json) : Option Audio := do
  let name ← getStrField j "Name"
  let id ← getStrField j "Id"
  let premiere_date ← getOptDateField j "PremiereDate"
  let artists ← (j.getField "Artists").bind decodeStrList
  let artist_items ← (j.getField "ArtistItems").bind decodeArtistItems
  let album ← getOptStrField j "Album"
  let album_id ← getOptStrField j "AlbumId"
  let album_artist ← getOptStrField j "AlbumArtist"
  let runtime_ticks ← getOptNatField j "RunTimeTicks"
  pure { name := name, id := id, premiere_date := premiere_date,
         artists := artists, artist_items := artist_items,
         album := album, album_id := album_id,
         album_artist := album_artist, runtime_ticks := runtime_ticks }

/-- Serde deserialization of the internally tagged `ItemType`: the
    `Type` field selects the variant, whose fields are read from the
    same object. -/
def ItemType.fromJson (j : Json) : Option ItemType :=
  match (j.getField "Type").bind Json.asStr with
  | some "MusicArtist" => (Item.fromJson j).map ItemType.musicArtist
  | some "Audio" => (Audio.fromJson j).map ItemType.audio
  | some "MusicAlbum" => (MusicAlbum.fromJson j).map ItemType.musicAlbum
  | some "Playlist" => (Item.fromJson j).map ItemType.playlist
  | _ => none

/-- Serde deserialization of `ItemsResponse<I>`, parameterised by the
    item decoder. -/
def ItemsResponse.fromJson {I : Type} (decodeItem : Json → Option I)
    (j : Json) : Option (ItemsResponse I) := do
  let items ←
    match j.getField "Items" with
    | some (.arr xs) => decodeEach decodeItem xs
    | _ => none
  let total_record_count ← (j.getField "TotalRecordCount").bind Json.asInt
  let start_index ← (j.getField "StartIndex").bind Json.asInt
  pure { items := items, total_record_count := total_record_count,
         start_index := start_index }

/-- Embeds `reqwest::Response::json::<T>()`: parse the body text as JSON and
    decode it; both failure modes surface as a `reqwest::Error`, which
    `From<reqwest::Error>` turns into `RequestError`. -/
def Response.json {α : Type} (r : Response) (decode : Json → Option α) :
    Except JellyfinError α :=
  match r.jsonBody with
  | none => .error .requestError
  | some j =>
    match decode j with
    | none => .error .requestError
    | some v => .ok v

/-! API client (src/lib.rs). -/

/-- Embeds `struct AuthInfo`: the stored session. -/
structure AuthInfo where
  token : String
  user_id : String
  deriving Repr, DecidableEq

/-- Embeds `struct JellyfinApi` (the `Client` handle carries no state that
    matters here; the `Arc` wrappers are value sharing only). -/
structure JellyfinApi where
  server_url : String
  auth_info : Option AuthInfo
  deriving Repr, DecidableEq

/-- Embeds `Url::join` for the absolute-path fragments the client uses:
    resolve the path against the server base URL. -/
def urlJoin (base path : String) : String := base ++ path

/-- Embeds `JellyfinApi::make_request` (lib.rs lines 138-150): build a request
    and attach the stored token when a session exists. -/
def JellyfinApi.make_request (api : JellyfinApi) (method : Method)
    (path : String) : JellyfinRequestBuilder :=
  let builder := JellyfinRequestBuilder.new method
    (urlJoin api.server_url path)
  match api.auth_info with
  | some ai => builder.auth ai.token
  | none => builder

/-- Embeds `JellyfinApi::get`. -/
def JellyfinApi.get (api : JellyfinApi) (path : String) :
    JellyfinRequestBuilder :=
  api.make_request .get path

/-- Embeds `JellyfinApi::post`. -/
def JellyfinApi.post (api : JellyfinApi) (path : String) :
    JellyfinRequestBuilder :=
  api.make_request .post path

/-- Request sent by `authenticate_with_token`: GET `/Users/Me` with the
    supplied token attached. -/
def auth_token_request (api : JellyfinApi) (token : String) : Request :=
  ((api.get "/Users/Me").auth token).request

/-- Embeds `JellyfinApi::authenticate_with_token` (lib.rs lines 67-84).  The
    Rust method mutates `&mut self` and returns `Result<(), _>`; the
    embedding returns the post-state together with that result. -/
def JellyfinApi.authenticate_with_token (api : JellyfinApi)
    (token : String) (server : Server) :
    JellyfinApi × Except JellyfinError Unit :=
  match sendRequest server (auth_token_request api token) with
  | .error e => (api, .error e)
  | .ok resp =>
    match resp.json UserInfo.fromJson with
    | .error e => (api, .error e)
    | .ok user_info =>
      ({ api with auth_info := some { token := token, user_id := user_info.id } },
       .ok ())

/-- Request sent by `authenticate_with_password`: POST
    `/Users/AuthenticateByName` with the credentials body and the
    client-identification header. -/
def auth_password_request (api : JellyfinApi)
    (username password : String) : Request :=
  (((api.post "/Users/AuthenticateByName").json
      (Json.obj [("Username", .str username), ("Pw", .str password)])).header
    "X-Emby-Authorization" passwordEmbyAuthorization).request

/-- Embeds `JellyfinApi::authenticate_with_password` (lib.rs lines 86-121),
    embedded like `authenticate_with_token`.  (`serde_json::to_string`
    on the credentials object cannot fail, so the builder's
    serialization error path does not arise.) -/
def JellyfinApi.authenticate_with_password (api : JellyfinApi)
    (username password : String) (server : Server) :
    JellyfinApi × Except JellyfinError Unit :=
  match sendRequest server (auth_password_request api username password) with
  | .error e => (api, .error e)
  | .ok resp =>
    match resp.json AuthResponse.fromJson with
    | .error e => (api, .error e)
    | .ok auth_response =>
      ({ api with
          auth_info := some { token := auth_response.access_token,
                              user_id := auth_response.user.id } },
       .ok ())

/-- Embeds `JellyfinApi::ping` (lib.rs lines 130-136). -/
def JellyfinApi.ping (api : JellyfinApi) (server : Server) :
    Except JellyfinError Unit :=
  match (api.get "/System/Ping").send server with
  | .error e => .error e
  | .ok resp =>
    if resp.body = "\"Jellyfin Server\"" then .ok ()
    else .error .serverError

/-- Query-parameter map built by `get_items` (lib.rs lines 168-191):
    optional `ParentId`, optional `IncludeItemTypes`, optional
    `Recursive`, mandatory `Limit`, then the caller's extra parameters
    inserted last. -/
def get_items_params (parent_id : Option String)
    (item_types : List ItemType) (recursive : Bool) (limit : Nat)
    (extra_params : List (String × String)) : List (String × String) :=
  let params : List (String × String) := []
  let params :=
    match parent_id with
    | some p => assocInsert params "ParentId" p
    | none => params
  let params :=
    if item_types.isEmpty then params
    else assocInsert params "IncludeItemTypes"
      (String.intercalate "," (item_types.map ItemType.as_str))
  let params :=
    if recursive then assocInsert params "Recursive" "True" else params
  let params := assocInsert params "Limit" (toString limit)
  insertAll params extra_params

/-- Request sent by `get_items` once the session check has passed. -/
def get_items_request (api : JellyfinApi) (ai : AuthInfo)
    (params : List (String × String)) : Request :=
  ((api.get ("/Users/" ++ ai.user_id ++ "/Items")).query params).request

/-- Embeds `JellyfinApi::get_items` (lib.rs lines 160-207): parameters are
    built first, then the missing-session check aborts with
    `AuthorizationError` before any request is sent. -/
def JellyfinApi.get_items (api : JellyfinApi) (parent_id : Option String)
    (item_types : List ItemType) (recursive : Bool) (limit : Nat)
    (extra_params : List (String × String)) (server : Server) :
    Except JellyfinError (ItemsResponse ItemType) :=
  let params := get_items_params parent_id item_types recursive limit
    extra_params
  match api.auth_info with
  | none => .error .authorizationError
  | some ai =>
    (sendRequest server (get_items_request api ai params)).bind
      (fun resp => resp.json (ItemsResponse.fromJson ItemType.fromJson))

/-- Embeds `JellyfinApi::get_artists` (lib.rs lines 209-226): note that no
    session check is performed. -/
def JellyfinApi.get_artists (api : JellyfinApi)
    (library_id : Option String) (server : Server) :
    Except JellyfinError (ItemsResponse Item) :=
  let params : List (String × String) :=
    match library_id with
    | some p => assocInsert [] "ParentId" p
    | none => []
  (((api.get "/Artists").query params).send server).bind
    (fun resp => resp.json (ItemsResponse.fromJson Item.fromJson))

/-- Body of the `collect::<Result<Vec<MusicAlbum>, _>>` in
    `get_albums`: each non-`MusicAlbum` item becomes `ServerError`. -/
def collectAlbums : List ItemType → Except JellyfinError (List MusicAlbum)
  | [] => .ok []
  | .musicAlbum album :: rest => (collectAlbums rest).map (album :: ·)
  | _ :: _ => .error .serverError

/-- Embeds `JellyfinApi::get_albums` (lib.rs lines 228-250). -/
def JellyfinApi.get_albums (api : JellyfinApi) (artist_ids : List String)
    (server : Server) : Except JellyfinError (List MusicAlbum) :=
  (api.get_items none [ItemType.musicAlbum MusicAlbum.default] true 200
      [("ArtistIds", String.intercalate "," artist_ids)] server).bind
    (fun response => collectAlbums response.items)

/-- Request sent by `get_playlist_items`, `none` when no session is
    stored (the session check precedes the request). -/
def get_playlist_items_request (api : JellyfinApi) (playlist_id : String) :
    Option Request :=
  match api.auth_info with
  | none => none
  | some ai =>
    some (((api.get ("/Playlists/" ++ playlist_id ++ "/Items")).query
        (assocInsert [] "UserId" ai.user_id)).request)

/-- Embeds `JellyfinApi::get_playlist_items` (lib.rs lines 252-272). -/
def JellyfinApi.get_playlist_items (api : JellyfinApi)
    (playlist_id : String) (server : Server) :
    Except JellyfinError (List Audio) :=
  match get_playlist_items_request api playlist_id with
  | none => .error .authorizationError
  | some req =>
    ((sendRequest server req).bind
        (fun resp => resp.json (ItemsResponse.fromJson Audio.fromJson))).map
      (fun response => response.items)

/-- Request sent by `get_item_image` (no session check exists). -/
def get_item_image_request (api : JellyfinApi) (item_id : String)
    (image_type : ImageType) (max_size : Nat × Nat) : Request :=
  ((api.get ("/Items/" ++ item_id ++ "/Images/" ++ image_type.as_str)).query
      (assocInsert (assocInsert [] "maxWidth" (toString max_size.1))
        "maxHeight" (toString max_size.2))).request

/-- Embeds `JellyfinApi::get_item_image` (lib.rs lines 275-300): a `NotFound`
    failure of the request becomes `Ok(None)`; the image bytes are the
    raw body. -/
def JellyfinApi.get_item_image (api : JellyfinApi) (item_id : String)
    (image_type : ImageType) (max_size : Nat × Nat) (server : Server) :
    Except JellyfinError (Option String) :=
  match sendRequest server (get_item_image_request api item_id image_type max_size) with
  | .ok resp => .ok (some resp.body)
  | .error .notFound => .ok none
  | .error e => .error e

/-- Embeds `JellyfinApi::get_views` (lib.rs lines 302-315). -/
def JellyfinApi.get_views (api : JellyfinApi) (server : Server) :
    Except JellyfinError (ItemsResponse Item) :=
  match api.auth_info with
  | none => .error .authorizationError
  | some ai =>
    ((api.get ("/Users/" ++ ai.user_id ++ "/Views")).send server).bind
      (fun resp => resp.json (ItemsResponse.fromJson Item.fromJson))

/-- Embeds `JellyfinApi::get_audio_stream` (lib.rs lines 317-337): the session
    check happens while building the `UserId` parameter, before any
    request is sent; the raw response is returned. -/
def JellyfinApi.get_audio_stream (api : JellyfinApi) (item_id : String)
    (server : Server) : Except JellyfinError Response :=
  match api.auth_info with
  | none => .error .authorizationError
  | some ai =>
    ((api.get ("/Audio/" ++ item_id ++ "/universal")).query
        (assocInsert (assocInsert [] "Container" "flac,mp3,ogg,wav")
          "UserId" ai.user_id)).send server

/-! Association-list lemmas. -/

theorem assocFind_erase {α : Type} (l : List (String × α)) (k k2 : String)
    (h : k2 ≠ k) : assocFind (assocErase l k) k2 = assocFind l k2 := by
  induction l with
  | nil => rfl
  | cons hd tl ih =>
    obtain ⟨a, b⟩ := hd
    by_cases hak : a = k
    · subst hak
      rw [assocErase, if_pos rfl, ih, assocFind,
        if_neg (fun hk => h hk.symm)]
    · rw [assocErase, if_neg hak, assocFind, assocFind]
      by_cases hak2 : a = k2
      · rw [if_pos hak2, if_pos hak2]
      · rw [if_neg hak2, if_neg hak2, ih]

theorem assocFind_insert {α : Type} (l : List (String × α)) (k k2 : String)
    (v : α) :
    assocFind (assocInsert l k v) k2 =
      if k = k2 then some v else assocFind l k2 := by
  by_cases h : k = k2
  · rw [assocInsert, assocFind, if_pos h, if_pos h]
  · rw [assocInsert, assocFind, if_neg h, if_neg h,
      assocFind_erase l k k2 (fun hk => h hk.symm)]

theorem assocFind_insertAll {α : Type} (m l : List (String × α))
    (k : String) :
    assocFind (insertAll m l) k =
      match lookupLast l k with
      | some v => some v
      | none => assocFind m k := by
  induction l generalizing m with
  | nil => rfl
  | cons hd tl ih =>
    obtain ⟨a, b⟩ := hd
    show assocFind (insertAll (assocInsert m a b) tl) k = _
    rw [ih]
    cases hlast : lookupLast tl k with
    | some v => simp [lookupLast, hlast]
    | none =>
      rw [assocFind_insert]
      by_cases hak : a = k
      · simp [lookupLast, hlast, hak]
      · simp [lookupLast, hlast, hak]

/-! Status-mapping lemmas. -/

theorem sendRequest_eq (server : Server) (req : Request) :
    sendRequest server req =
      if 400 ≤ (server req).status ∧ (server req).status ≤ 599 then
        Except.error (JellyfinError.fromStatus (server req).status)
      else Except.ok (server req) := by
  unfold sendRequest isClientError isServerError
  by_cases h : 400 ≤ (server req).status ∧ (server req).status ≤ 599
  · rw [if_pos h, if_pos]
    simp only [Bool.or_eq_true, Bool.and_eq_true, decide_eq_true_eq]
    omega
  · rw [if_neg h, if_neg]
    simp only [Bool.or_eq_true, Bool.and_eq_true, decide_eq_true_eq]
    omega

theorem fromStatus_eq_notFound (s : Nat) :
    JellyfinError.fromStatus s = .notFound ↔ s = 404 := by
  unfold JellyfinError.fromStatus
  split_ifs <;> simp_all

/-- C1: in the request builder's send operation, a 401 status fails with
    AuthorizationError, 404 with NotFound, 400 with BadRequest, 500 with
    ServerError, any other 4xx/5xx with UnhandledError carrying the
    status text, and every status outside 4xx/5xx yields the raw
    response successfully. -/
theorem c1_send_status_mapping (b : JellyfinRequestBuilder)
    (server : Server) :
    ((server b.request).status = 401 →
      b.send server = .error .authorizationError) ∧
    ((server b.request).status = 404 →
      b.send server = .error .notFound) ∧
    ((server b.request).status = 400 →
      b.send server = .error .badRequest) ∧
    ((server b.request).status = 500 →
      b.send server = .error .serverError) ∧
    (∀ s : Nat, (server b.request).status = s → 400 ≤ s → s ≤ 599 →
      s ≠ 400 → s ≠ 401 → s ≠ 404 → s ≠ 500 →
      b.send server = .error (.unhandledError (statusText s))) ∧
    (¬ (400 ≤ (server b.request).status ∧ (server b.request).status ≤ 599) →
      b.send server = .ok (server b.request)) := by
  unfold JellyfinRequestBuilder.send
  rw [sendRequest_eq]
  refine ⟨?_, ?_, ?_, ?_, ?_, ?_⟩
  · intro h
    rw [h, if_pos (by omega)]
    rfl
  · intro h
    rw [h, if_pos (by omega)]
    rfl
  · intro h
    rw [h, if_pos (by omega)]
    rfl
  · intro h
    rw [h, if_pos (by omega)]
    rfl
  · intro s hs h400 h599 hn400 hn401 hn404 hn500
    rw [hs, if_pos (by omega)]
    unfold JellyfinError.fromStatus
    rw [if_neg hn401, if_neg hn404, if_neg hn500, if_neg hn400]
  · intro h
    rw [if_neg h]

/-- Witness for C1 at statuses 403 and 200. -/
theorem c1_send_status_mapping_witness :
    ((JellyfinRequestBuilder.new .get "u").send
        (fun _ => ⟨403, "", none⟩) =
      .error (.unhandledError (statusText 403))) ∧
    ((JellyfinRequestBuilder.new .get "u").send
        (fun _ => ⟨200, "", none⟩) =
      .ok ⟨200, "", none⟩) := by
  constructor
  · exact (c1_send_status_mapping _ _).2.2.2.2.1 403 rfl (by decide)
      (by decide) (by decide) (by decide) (by decide) (by decide)
  · exact (c1_send_status_mapping _ _).2.2.2.2.2 (by decide)

/-! Claim C2. -/

/-- Client with no stored session. -/
def noSessionApi : JellyfinApi := { server_url := "http://s", auth_info := none }

/-- Server answering every request with 200 and an empty item list. -/
def emptyItemsServer : Server := fun _ =>
  { status := 200
    body := ""
    jsonBody := some (Json.obj [("Items", Json.arr []),
      ("TotalRecordCount", Json.num 0), ("StartIndex", Json.num 0)]) }

/-- C2 counterexample: with no session, `get_artists` does not fail with
    AuthorizationError — it issues the request and returns the decoded
    response. -/
theorem c2_counterexample :
    noSessionApi.get_artists none emptyItemsServer =
      .ok { items := ([] : List Item), total_record_count := 0,
            start_index := 0 } ∧
    noSessionApi.get_artists none emptyItemsServer ≠
      .error .authorizationError := by
  have h1 : noSessionApi.get_artists none emptyItemsServer =
      .ok { items := ([] : List Item), total_record_count := 0,
            start_index := 0 } := rfl
  exact ⟨h1, by rw [h1]; exact fun h => Except.noConfusion h⟩

/-- C2 amended: with no session, `get_items`, `get_albums`,
    `get_playlist_items`, `get_views` and `get_audio_stream` fail with
    AuthorizationError whatever the server answers (so no
    session-dependent request is issued); `get_artists` and
    `get_item_image` perform no such check. -/
theorem c2_no_session (api : JellyfinApi) (h : api.auth_info = none)
    (parent_id : Option String) (item_types : List ItemType)
    (recursive : Bool) (limit : Nat) (extra : List (String × String))
    (artist_ids : List String) (playlist_id item_id : String)
    (server : Server) :
    api.get_items parent_id item_types recursive limit extra server =
      .error .authorizationError ∧
    api.get_albums artist_ids server = .error .authorizationError ∧
    api.get_playlist_items playlist_id server =
      .error .authorizationError ∧
    api.get_views server = .error .authorizationError ∧
    api.get_audio_stream item_id server = .error .authorizationError := by
  refine ⟨?_, ?_, ?_, ?_, ?_⟩ <;>
    simp [JellyfinApi.get_items, JellyfinApi.get_albums,
      JellyfinApi.get_playlist_items, get_playlist_items_request,
      JellyfinApi.get_views, JellyfinApi.get_audio_stream, Except.bind, h]

/-- Witness for C2 amended at a concrete sessionless client. -/
theorem c2_no_session_witness :
    noSessionApi.get_items none [] false 10 [] emptyItemsServer =
      .error .authorizationError ∧
    noSessionApi.get_albums [] emptyItemsServer =
      .error .authorizationError ∧
    noSessionApi.get_playlist_items "p" emptyItemsServer =
      .error .authorizationError ∧
    noSessionApi.get_views emptyItemsServer =
      .error .authorizationError ∧
    noSessionApi.get_audio_stream "i" emptyItemsServer =
      .error .authorizationError :=
  c2_no_session noSessionApi rfl none [] false 10 [] [] "p" "i"
    emptyItemsServer

/-! Claim C3. -/

/-- C3 counterexample: the quoted ping literal has 17 characters, not
    18, and ping succeeds on that 17-character body. -/
theorem c3_counterexample :
    ("\"Jellyfin Server\"".length = 17 ∧
      "\"Jellyfin Server\"".length ≠ 18) ∧
    (JellyfinApi.mk "http://s" none).ping
      (fun _ => ⟨200, "\"Jellyfin Server\"", none⟩) = .ok () :=
  ⟨⟨by decide, by decide⟩, rfl⟩

/-- C3 amended: ping succeeds exactly when the raw body equals the
    17-character literal `"Jellyfin Server"` (quotes included); once
    the status check passes, every other body fails with ServerError. -/
theorem c3_ping (api : JellyfinApi) (server : Server) :
    ("\"Jellyfin Server\"".length = 17) ∧
    (¬ (400 ≤ (server ((api.get "/System/Ping").request)).status ∧
        (server ((api.get "/System/Ping").request)).status ≤ 599) →
      (api.ping server = .ok () ↔
        (server ((api.get "/System/Ping").request)).body =
          "\"Jellyfin Server\"") ∧
      ((server ((api.get "/System/Ping").request)).body ≠
          "\"Jellyfin Server\"" →
        api.ping server = .error .serverError)) := by
  refine ⟨by decide, fun h => ?_⟩
  unfold JellyfinApi.ping JellyfinRequestBuilder.send
  rw [sendRequest_eq, if_neg h]
  simp only []
  by_cases hb : (server ((api.get "/System/Ping").request)).body =
      "\"Jellyfin Server\""
  · rw [if_pos hb]
    exact ⟨iff_of_true rfl hb, fun hc => absurd hb hc⟩
  · rw [if_neg hb]
    refine ⟨iff_of_false (fun hc => Except.noConfusion hc) hb, fun _ => rfl⟩

/-- Witness for C3 amended: a 200 response with a different body makes
    ping fail with ServerError. -/
theorem c3_ping_witness :
    (JellyfinApi.mk "http://s" none).ping
      (fun _ => ⟨200, "Jellyfin Server", none⟩) = .error .serverError :=
  ((c3_ping (JellyfinApi.mk "http://s" none)
      (fun _ => ⟨200, "Jellyfin Server", none⟩)).2 (by decide)).2 (by decide)

/-! Claim C4. -/

/-- Reformulation of `get_item_image` as a single match. -/
theorem get_item_image_eq (api : JellyfinApi) (item_id : String)
    (image_type : ImageType) (max_size : Nat × Nat) (server : Server) :
    api.get_item_image item_id image_type max_size server =
      match sendRequest server
          (get_item_image_request api item_id image_type max_size) with
      | .ok resp => .ok (some resp.body)
      | .error e => if e = .notFound then .ok none else .error e := by
  unfold JellyfinApi.get_item_image
  cases sendRequest server
      (get_item_image_request api item_id image_type max_size) with
  | ok resp => rfl
  | error e => cases e <;> rfl

/-- C4: `get_item_image` yields `Ok(None)` exactly when the server
    answers 404; any other request error propagates unchanged; a
    successful response yields its bytes. -/
theorem c4_get_item_image (api : JellyfinApi) (item_id : String)
    (image_type : ImageType) (max_size : Nat × Nat) (server : Server) :
    (api.get_item_image item_id image_type max_size server = .ok none ↔
      (server (get_item_image_request api item_id image_type
        max_size)).status = 404) ∧
    (∀ e, sendRequest server
        (get_item_image_request api item_id image_type max_size) =
          .error e →
      e ≠ .notFound →
      api.get_item_image item_id image_type max_size server = .error e) ∧
    (∀ resp, sendRequest server
        (get_item_image_request api item_id image_type max_size) =
          .ok resp →
      api.get_item_image item_id image_type max_size server =
        .ok (some resp.body)) := by
  rw [get_item_image_eq, sendRequest_eq]
  by_cases h : 400 ≤ (server (get_item_image_request api item_id image_type
      max_size)).status ∧
      (server (get_item_image_request api item_id image_type
        max_size)).status ≤ 599
  · rw [if_pos h]
    simp only [fromStatus_eq_notFound]
    by_cases h404 : (server (get_item_image_request api item_id image_type
        max_size)).status = 404
    · rw [if_pos h404]
      refine ⟨iff_of_true rfl h404, fun e he hne => ?_, fun resp hr => ?_⟩
      · rw [(Except.error.injEq _ _).mp he.symm] at hne
        exact absurd ((fromStatus_eq_notFound _).mpr h404) hne
      · exact Except.noConfusion hr
    · rw [if_neg h404]
      refine ⟨iff_of_false (fun hc => Except.noConfusion hc) h404,
        fun e he _ => ?_, fun resp hr => ?_⟩
      · rw [(Except.error.injEq _ _).mp he]
      · exact Except.noConfusion hr
  · rw [if_neg h]
    have h404 : (server (get_item_image_request api item_id image_type
        max_size)).status ≠ 404 := by omega
    refine ⟨iff_of_false (by simp) h404, fun e he _ => Except.noConfusion he,
      fun resp hr => ?_⟩
    rw [(Except.ok.injEq _ _).mp hr]

/-- Witness for C4: a 500 response propagates as ServerError and a 404
    response yields `Ok(None)`. -/
theorem c4_get_item_image_witness :
    (JellyfinApi.mk "http://s" none).get_item_image "i" .primary (1, 2)
        (fun _ => ⟨500, "", none⟩) = .error .serverError ∧
    ((JellyfinApi.mk "http://s" none).get_item_image "i" .primary (1, 2)
        (fun _ => ⟨404, "", none⟩) = .ok none ↔
      ((fun (_ : Request) => (⟨404, "", none⟩ : Response))
        (get_item_image_request (JellyfinApi.mk "http://s" none) "i"
          .primary (1, 2))).status = 404) :=
  ⟨(c4_get_item_image (JellyfinApi.mk "http://s" none) "i" .primary (1, 2)
      (fun _ => ⟨500, "", none⟩)).2.1 .serverError rfl (by decide),
   (c4_get_item_image (JellyfinApi.mk "http://s" none) "i" .primary (1, 2)
      (fun _ => ⟨404, "", none⟩)).1⟩

/-! Claim C5. -/

/-- Parameter map `get_albums` hands to `get_items`. -/
def get_albums_params (artist_ids : List String) : List (String × String) :=
  get_items_params none [ItemType.musicAlbum MusicAlbum.default] true 200
    [("ArtistIds", String.intercalate "," artist_ids)]

/-- The query of the list-items request is exactly the parameter map. -/
theorem get_items_request_query (api : JellyfinApi) (ai : AuthInfo)
    (params : List (String × String)) :
    (get_items_request api ai params).query = params := by
  unfold get_items_request JellyfinRequestBuilder.query JellyfinApi.get
    JellyfinApi.make_request
  cases api.auth_info <;> rfl

/-- C5: `get_albums` delegates to a list-items request filtered to
    MusicAlbum, recursive, limit 200, with the comma-joined `ArtistIds`
    parameter; the returned items decode to albums exactly when every
    item is a MusicAlbum variant, any other variant failing with
    ServerError. -/
theorem c5_get_albums (api : JellyfinApi) (ai : AuthInfo)
    (artist_ids : List String) (server : Server)
    (h : api.auth_info = some ai) :
    (assocFind (get_items_request api ai (get_albums_params artist_ids)).query
        "IncludeItemTypes" = some "MusicAlbum" ∧
      assocFind (get_items_request api ai (get_albums_params artist_ids)).query
        "Recursive" = some "True" ∧
      assocFind (get_items_request api ai (get_albums_params artist_ids)).query
        "Limit" = some "200" ∧
      assocFind (get_items_request api ai (get_albums_params artist_ids)).query
        "ArtistIds" = some (String.intercalate "," artist_ids)) ∧
    (api.get_albums artist_ids server =
      (api.get_items none [ItemType.musicAlbum MusicAlbum.default] true 200
          [("ArtistIds", String.intercalate "," artist_ids)] server).bind
        (fun response => collectAlbums response.items)) ∧
    (api.get_items none [ItemType.musicAlbum MusicAlbum.default] true 200
        [("ArtistIds", String.intercalate "," artist_ids)] server =
      (sendRequest server
          (get_items_request api ai (get_albums_params artist_ids))).bind
        (fun resp =>
          resp.json (ItemsResponse.fromJson ItemType.fromJson))) ∧
    (∀ albums : List MusicAlbum,
      collectAlbums (albums.map ItemType.musicAlbum) = .ok albums) ∧
    (∀ items : List ItemType,
      (∃ x ∈ items, ∀ album, x ≠ ItemType.musicAlbum album) →
      collectAlbums items = .error .serverError) := by
  refine ⟨?_, rfl, ?_, ?_, ?_⟩
  · rw [get_items_request_query]
    exact ⟨rfl, rfl, rfl, rfl⟩
  · unfold JellyfinApi.get_items
    rw [h]
    rfl
  · intro albums
    induction albums with
    | nil => rfl
    | cons hd tl ih => simp [collectAlbums, ih, Except.map]
  · intro items
    induction items with
    | nil =>
      rintro ⟨x, hx, _⟩
      exact absurd hx (List.not_mem_nil x)
    | cons hd tl ih =>
      rintro ⟨x, hx, hne⟩
      rcases List.mem_cons.mp hx with hhd | htl
      · subst hhd
        cases x with
        | musicArtist i => rfl
        | audio a => rfl
        | musicAlbum album => exact absurd rfl (hne album)
        | playlist i => rfl
      · have htlerr := ih ⟨x, htl, hne⟩
        cases hd with
        | musicArtist i => rfl
        | audio a => rfl
        | musicAlbum album => simp [collectAlbums, htlerr, Except.map]
        | playlist i => rfl

/-- Witness for C5 on a client holding a session. -/
theorem c5_get_albums_witness :
    assocFind
        (get_items_request (JellyfinApi.mk "http://s" (some ⟨"t", "u"⟩))
          ⟨"t", "u"⟩ (get_albums_params ["a", "b"])).query "Limit" =
      some "200" ∧
    collectAlbums [ItemType.musicAlbum MusicAlbum.default] =
      .ok [MusicAlbum.default] ∧
    collectAlbums [ItemType.playlist ⟨"n", "i", none⟩] =
      .error .serverError := by
  have base := c5_get_albums (JellyfinApi.mk "http://s" (some ⟨"t", "u"⟩))
    ⟨"t", "u"⟩ ["a", "b"] emptyItemsServer rfl
  refine ⟨base.1.2.2.1, base.2.2.2.1 [MusicAlbum.default],
    base.2.2.2.2 [ItemType.playlist ⟨"n", "i", none⟩]
      ⟨ItemType.playlist ⟨"n", "i", none⟩, ?_, ?_⟩⟩
  · exact List.mem_singleton.mpr rfl
  · intro album hc
    exact ItemType.noConfusion hc

/-! Claim C6. -/

/-- C6: in the map built by `get_items`, `ParentId`,
    `IncludeItemTypes`, `Recursive` and `Limit` are exactly as the
    inputs dictate whenever the extra parameters do not use that key,
    and every key occurring among the extra parameters ends up bound to
    its last extra value (extras are inserted last and win). -/
theorem c6_get_items_params (parent_id : Option String)
    (item_types : List ItemType) (recursive : Bool) (limit : Nat)
    (extra : List (String × String)) :
    (lookupLast extra "ParentId" = none →
      assocFind (get_items_params parent_id item_types recursive limit extra)
        "ParentId" = parent_id) ∧
    (lookupLast extra "IncludeItemTypes" = none →
      assocFind (get_items_params parent_id item_types recursive limit extra)
          "IncludeItemTypes" =
        if item_types.isEmpty then none
        else some (String.intercalate "," (item_types.map ItemType.as_str))) ∧
    (lookupLast extra "Recursive" = none →
      assocFind (get_items_params parent_id item_types recursive limit extra)
          "Recursive" =
        if recursive then some "True" else none) ∧
    (lookupLast extra "Limit" = none →
      assocFind (get_items_params parent_id item_types recursive limit extra)
        "Limit" = some (toString limit)) ∧
    (∀ k v, lookupLast extra k = some v →
      assocFind (get_items_params parent_id item_types recursive limit extra)
        k = some v) := by
  refine ⟨?_, ?_, ?_, ?_, ?_⟩
  · intro hnone
    rcases parent_id with _ | p <;> cases recursive <;>
      by_cases ht : item_types.isEmpty <;>
        simp [get_items_params, ht, assocFind_insertAll, hnone,
          assocFind_insert, assocFind]
  · intro hnone
    rcases parent_id with _ | p <;> cases recursive <;>
      by_cases ht : item_types.isEmpty <;>
        simp [get_items_params, ht, assocFind_insertAll, hnone,
          assocFind_insert, assocFind]
  · intro hnone
    rcases parent_id with _ | p <;> cases recursive <;>
      by_cases ht : item_types.isEmpty <;>
        simp [get_items_params, ht, assocFind_insertAll, hnone,
          assocFind_insert, assocFind]
  · intro hnone
    rcases parent_id with _ | p <;> cases recursive <;>
      by_cases ht : item_types.isEmpty <;>
        simp [get_items_params, ht, assocFind_insertAll, hnone,
          assocFind_insert, assocFind]
  · intro k v hlast
    simp only [get_items_params]
    rw [assocFind_insertAll, hlast]

/-- Witness for C6: a caller-supplied `Limit` overrides the built-in
    one, while an untouched built-in key keeps its value. -/
theorem c6_get_items_params_witness :
    assocFind (get_items_params (some "p") [] false 50 [("Limit", "7")])
      "Limit" = some "7" ∧
    assocFind (get_items_params (some "p") [] false 50 [("Limit", "7")])
      "ParentId" = some "p" :=
  ⟨(c6_get_items_params (some "p") [] false 50 [("Limit", "7")]).2.2.2.2
      "Limit" "7" rfl,
   (c6_get_items_params (some "p") [] false 50 [("Limit", "7")]).1 rfl⟩

/-! Claim C7. -/

/-- C7: while a session is stored, every request the client builds
    carries exactly the stored token, unmodified, in the `X-Emby-Token`
    header. -/
theorem c7_token_attached (api : JellyfinApi) (ai : AuthInfo)
    (method : Method) (path : String) (h : api.auth_info = some ai) :
    assocFind (api.make_request method path).request.headers
      "X-Emby-Token" = some ai.token := by
  unfold JellyfinApi.make_request
  rw [h]
  simp only [JellyfinRequestBuilder.auth]
  rw [assocFind_insert]
  simp

/-- Witness for C7 on a concrete session. -/
theorem c7_token_attached_witness :
    assocFind ((JellyfinApi.mk "http://s"
        (some ⟨"tok", "u"⟩)).make_request .get "/x").request.headers
      "X-Emby-Token" = some "tok" :=
  c7_token_attached (JellyfinApi.mk "http://s" (some ⟨"tok", "u"⟩))
    ⟨"tok", "u"⟩ .get "/x" rfl

/-! Claim C8. -/

/-- A successful send hands back exactly the server's response. -/
theorem sendRequest_ok (server : Server) (req : Request) (resp : Response)
    (h : sendRequest server req = .ok resp) : resp = server req := by
  rw [sendRequest_eq] at h
  by_cases hr : 400 ≤ (server req).status ∧ (server req).status ≤ 599
  · rw [if_pos hr] at h
    exact Except.noConfusion h
  · rw [if_neg hr] at h
    exact ((Except.ok.injEq _ _).mp h).symm

/-- C8: after a successful authenticate-by-token, the stored session is
    the supplied token paired with the user id decoded from the
    identity response, and the playlist-items request built afterwards
    carries that recovered user id as its `UserId` parameter. -/
theorem c8_authenticate_with_token (api api2 : JellyfinApi)
    (token : String) (server : Server)
    (h : api.authenticate_with_token token server = (api2, .ok ())) :
    ∃ user_info : UserInfo,
      (server (auth_token_request api token)).json UserInfo.fromJson =
        .ok user_info ∧
      api2.auth_info = some { token := token, user_id := user_info.id } ∧
      ∀ playlist_id : String, ∃ req : Request,
        get_playlist_items_request api2 playlist_id = some req ∧
        assocFind req.query "UserId" = some user_info.id := by
  unfold JellyfinApi.authenticate_with_token at h
  split at h
  · exact absurd h (by simp)
  · rename_i resp hsend
    split at h
    · exact absurd h (by simp)
    · rename_i user_info hjson
      have happ : api2 =
          { api with
              auth_info := some { token := token,
                                  user_id := user_info.id } } :=
        (congrArg Prod.fst h).symm
      subst happ
      refine ⟨user_info, ?_, rfl, fun playlist_id => ⟨_, rfl, ?_⟩⟩
      · rw [← sendRequest_ok server (auth_token_request api token) resp
          hsend]
        exact hjson
      · rfl

/-- Server answering every request with the identity of user `uid1`. -/
def identityServer : Server := fun _ =>
  { status := 200
    body := ""
    jsonBody := some (Json.obj [("Name", Json.str "n"),
      ("ServerId", Json.str "sid"), ("Id", Json.str "uid1")]) }

/-- Witness for C8 on a concrete successful authentication. -/
theorem c8_authenticate_with_token_witness :
    ∃ user_info : UserInfo,
      (identityServer (auth_token_request noSessionApi "tok")).json
          UserInfo.fromJson = .ok user_info ∧
      (JellyfinApi.mk "http://s" (some ⟨"tok", "uid1"⟩)).auth_info =
        some { token := "tok", user_id := user_info.id } ∧
      ∀ playlist_id : String, ∃ req : Request,
        get_playlist_items_request
            (JellyfinApi.mk "http://s" (some ⟨"tok", "uid1"⟩))
            playlist_id = some req ∧
        assocFind req.query "UserId" = some user_info.id :=
  c8_authenticate_with_token noSessionApi
    (JellyfinApi.mk "http://s" (some ⟨"tok", "uid1"⟩)) "tok"
    identityServer rfl

/-! Claim C10. -/

/-- C10: when authentication fails at any step, the stored session (and
    the whole client state) is exactly what it was before the call. -/
theorem c10_auth_atomic (api : JellyfinApi)
    (token username password : String) (server : Server) :
    (∀ e, (api.authenticate_with_token token server).2 = .error e →
      (api.authenticate_with_token token server).1.auth_info =
          api.auth_info ∧
        (api.authenticate_with_token token server).1 = api) ∧
    (∀ e,
      (api.authenticate_with_password username password server).2 =
        .error e →
      (api.authenticate_with_password username password server).1.auth_info =
          api.auth_info ∧
        (api.authenticate_with_password username password server).1 =
          api) := by
  constructor
  · intro e
    unfold JellyfinApi.authenticate_with_token
    split
    · exact fun _ => ⟨rfl, rfl⟩
    · split
      · exact fun _ => ⟨rfl, rfl⟩
      · exact fun he => absurd he (by simp)
  · intro e
    unfold JellyfinApi.authenticate_with_password
    split
    · exact fun _ => ⟨rfl, rfl⟩
    · split
      · exact fun _ => ⟨rfl, rfl⟩
      · exact fun he => absurd he (by simp)

/-- Witness for C10 on a server that always answers 500. -/
theorem c10_auth_atomic_witness :
    ((noSessionApi.authenticate_with_token "t"
        (fun _ => ⟨500, "", none⟩)).1.auth_info =
        noSessionApi.auth_info ∧
      (noSessionApi.authenticate_with_token "t"
        (fun _ => ⟨500, "", none⟩)).1 = noSessionApi) ∧
    ((noSessionApi.authenticate_with_password "u" "p"
        (fun _ => ⟨500, "", none⟩)).1.auth_info =
        noSessionApi.auth_info ∧
      (noSessionApi.authenticate_with_password "u" "p"
        (fun _ => ⟨500, "", none⟩)).1 = noSessionApi) :=
  ⟨(c10_auth_atomic noSessionApi "t" "u" "p"
      (fun _ => ⟨500, "", none⟩)).1 .serverError rfl,
   (c10_auth_atomic noSessionApi "t" "u" "p"
      (fun _ => ⟨500, "", none⟩)).2 .serverError rfl⟩

/-! Claim C9. -/

/-- Elementwise decoding inverts elementwise encoding. -/
theorem decodeEach_roundtrip {α : Type} (enc : α → Json)
    (dec : Json → Option α) (h : ∀ a, dec (enc a) = some a)
    (l : List α) : decodeEach dec (l.map enc) = some l := by
  induction l with
  | nil => rfl
  | cons hd tl ih => simp [decodeEach, h hd, ih, Option.bind]

/-- Round trip of a string list through its JSON encoding. -/
theorem decodeEach_str_roundtrip (l : List String) :
    decodeEach Json.asStr (l.map Json.str) = some l :=
  decodeEach_roundtrip Json.str Json.asStr (fun _ => rfl) l

/-- A nonnegative `u64` encoding never hits the negative-number check. -/
theorem ite_natCast_lt_zero {β : Type} (n : Nat) (x y : β) :
    (if ((n : Int)) < 0 then x else y) = y := by
  rw [if_neg]
  omega

/-- Round trip of one `ArtistItem`. -/
theorem artistItem_roundtrip (a : ArtistItem) :
    ArtistItem.fromJson a.toJson = some a := by
  obtain ⟨n, i⟩ := a
  rfl

/-- Round trip of an `ArtistItem` list. -/
theorem decodeEach_artistItem_roundtrip (l : List ArtistItem) :
    decodeEach ArtistItem.fromJson (l.map ArtistItem.toJson) = some l :=
  decodeEach_roundtrip _ _ artistItem_roundtrip l

/-- C9: serializing each modeled entity to its documented wire fields
    and deserializing the result restores the value exactly. -/
theorem c9_roundtrip :
    (∀ u : UserInfo, UserInfo.fromJson u.toJson = some u) ∧
    (∀ a : AuthResponse, AuthResponse.fromJson a.toJson = some a) ∧
    (∀ i : Item, Item.fromJson i.toJson = some i) ∧
    (∀ m : MusicAlbum, MusicAlbum.fromJson m.toJson = some m) ∧
    (∀ a : Audio, Audio.fromJson a.toJson = some a) := by
  have huser : ∀ u : UserInfo, UserInfo.fromJson u.toJson = some u := by
    rintro ⟨n, s, i⟩
    rfl
  refine ⟨huser, ?_, ?_, ?_, ?_⟩
  · rintro ⟨u, t⟩
    simp [AuthResponse.fromJson, AuthResponse.toJson, Json.getField,
      assocFind, getStrField, Json.asStr, huser, Option.bind]
  · rintro ⟨n, i, ct⟩
    cases ct <;> rfl
  · rintro ⟨n, i, pd, ar, ai, aa⟩
    cases pd <;> cases aa <;>
      simp [MusicAlbum.fromJson, MusicAlbum.toJson, getStrField,
        getOptStrField, getOptDateField, encodeOptDate, encodeOptStr,
        Json.getField, assocFind, Json.asStr, decodeStrList,
        decodeArtistItems, decodeEach_str_roundtrip,
        decodeEach_artistItem_roundtrip, Option.bind]
  · rintro ⟨n, i, pd, ar, ai, al, alid, alar, rt⟩
    cases pd <;> cases al <;> cases alid <;> cases alar <;> cases rt <;>
      simp [Audio.fromJson, Audio.toJson, getStrField, getOptStrField,
        getOptDateField, getOptNatField, encodeOptDate, encodeOptStr,
        Json.getField, assocFind, Json.asStr, decodeStrList,
        decodeArtistItems, decodeEach_str_roundtrip,
        decodeEach_artistItem_roundtrip, ite_natCast_lt_zero,
        Option.bind]

end Jellyfin
